import Mathlib

set_option maxHeartbeats 1000000

/-!
Verification development for the live-update reconnect and ordering core of
the image gallery page (the `<script>` block of the Images page component).

The page keeps these mutable variables: `images` (the rendered collection),
`dummy_images` (the accumulation buffer), `connected`, `reconnectTimeout`,
`connectScheduled`, and the current socket `ws`.  The event listeners
(`open`, `close`, `error`, `message`), `closeAndErrorHandler`,
`scheduleReconnect`, `scheduleKeepalive`, `keepalive` and `insertSorted`
are embedded below as pure functions over an explicit state record, with
timers and in-flight probe promises tracked by pending counters and with
the observable side effects (starting a probe, scheduling a timer,
attempting a connection, terminating the session) reported as an action
list.
-/

namespace ImageWatch

/-- One gallery entry: `{ name, timestamp }` as built by the message
listener from a `[name, timestamp]` pair of an `added` delta.  JS numbers
are modelled as integers (the ordering claims only use comparisons). -/
structure Item where
  name : String
  timestamp : Int
deriving DecidableEq

/-- One decoded inbound message: `{ removed?, added? }`, both fields
optional (`none` models an absent / `undefined` field). -/
structure Delta where
  removed : Option (List String)
  added : Option (List (String × Int))
deriving DecidableEq

/-- `insertSorted` from the source: linear scan past all strictly larger
timestamps, then splice the new item in at that position. -/
def insertSorted : List Item → Item → List Item
  | [], img => [img]
  | x :: xs, img =>
      if img.timestamp < x.timestamp then x :: insertSorted xs img
      else img :: x :: xs

/-- The `data.removed` branch of the message listener: filter out every
item whose name is in the removed set.  When the field is absent the
branch is skipped (an empty `removed` array is truthy in JS and runs the
filter, which changes nothing, so both behaviours agree with this). -/
def applyRemoved (dummy : List Item) (d : Delta) : List Item :=
  match d.removed with
  | some removed => dummy.filter (fun img => !(removed.contains img.name))
  | none => dummy

/-- The items built from the `added` field (`data.added ?? []`). -/
def addedItems (d : Delta) : List Item :=
  (d.added.getD []).map (fun p => { name := p.1, timestamp := p.2 })

/-- The full body of the message listener on a decoded message: removals,
then `insertSorted` for each added pair, in order. -/
def applyDelta (dummy : List Item) (d : Delta) : List Item :=
  (addedItems d).foldl insertSorted (applyRemoved dummy d)

/-- A sequence of delta applications. -/
def applyDeltas (dummy : List Item) (ds : List Delta) : List Item :=
  ds.foldl applyDelta dummy

/-- Descending-timestamp order between two items. -/
def tsGE (a b : Item) : Prop := b.timestamp ≤ a.timestamp

instance : DecidableRel tsGE := fun a b => inferInstanceAs (Decidable (b.timestamp ≤ a.timestamp))

theorem insertSorted_perm (l : List Item) (img : Item) :
    List.Perm (insertSorted l img) (img :: l) := by
  induction l with
  | nil => exact List.Perm.refl _
  | cons x xs ih =>
      by_cases h : img.timestamp < x.timestamp
      · simp only [insertSorted, if_pos h]
        exact (ih.cons x).trans (List.Perm.swap img x xs)
      · simp only [insertSorted, if_neg h]
        exact List.Perm.refl _

theorem mem_insertSorted {a : Item} {l : List Item} {img : Item} :
    a ∈ insertSorted l img ↔ a = img ∨ a ∈ l := by
  rw [(insertSorted_perm l img).mem_iff, List.mem_cons]

theorem insertSorted_pairwise {l : List Item} (img : Item)
    (h : l.Pairwise tsGE) : (insertSorted l img).Pairwise tsGE := by
  induction l with
  | nil => simp [insertSorted, List.Pairwise]
  | cons x xs ih =>
      rcases List.pairwise_cons.mp h with ⟨hx, hxs⟩
      by_cases hc : img.timestamp < x.timestamp
      · simp only [insertSorted, if_pos hc]
        refine List.pairwise_cons.mpr ⟨?_, ih hxs⟩
        intro y hy
        rcases mem_insertSorted.mp hy with rfl | hy'
        · exact le_of_lt hc
        · exact hx y hy'
      · simp only [insertSorted, if_neg hc]
        refine List.pairwise_cons.mpr ⟨?_, h⟩
        intro y hy
        rcases List.mem_cons.mp hy with rfl | hy'
        · exact le_of_not_lt hc
        · exact le_trans (hx y hy') (le_of_not_lt hc)

theorem foldl_insertSorted_pairwise (adds : List Item) :
    ∀ l : List Item, l.Pairwise tsGE → (adds.foldl insertSorted l).Pairwise tsGE := by
  induction adds with
  | nil => intro l h; exact h
  | cons a as ih =>
      intro l h
      exact ih (insertSorted l a) (insertSorted_pairwise a h)

theorem applyRemoved_sublist (dummy : List Item) (d : Delta) :
    List.Sublist (applyRemoved dummy d) dummy := by
  unfold applyRemoved
  cases d.removed with
  | none => exact List.Sublist.refl _
  | some r => exact List.filter_sublist _

theorem applyDelta_pairwise {dummy : List Item} (d : Delta)
    (h : dummy.Pairwise tsGE) : (applyDelta dummy d).Pairwise tsGE :=
  foldl_insertSorted_pairwise _ _ (h.sublist (applyRemoved_sublist dummy d))

theorem applyDeltas_pairwise (ds : List Delta) :
    ∀ dummy : List Item, dummy.Pairwise tsGE → (applyDeltas dummy ds).Pairwise tsGE := by
  induction ds with
  | nil => intro dummy h; exact h
  | cons d ds ih =>
      intro dummy h
      exact ih (applyDelta dummy d) (applyDelta_pairwise d h)

theorem foldl_insertSorted_perm (adds : List Item) :
    ∀ l : List Item, List.Perm (adds.foldl insertSorted l) (adds ++ l) := by
  induction adds with
  | nil => intro l; exact List.Perm.refl _
  | cons a as ih =>
      intro l
      have h1 : List.Perm (as.foldl insertSorted (insertSorted l a)) (as ++ insertSorted l a) :=
        ih (insertSorted l a)
      have h2 : List.Perm (as ++ insertSorted l a) (as ++ (a :: l)) :=
        (insertSorted_perm l a).append_left as
      exact (h1.trans h2).trans List.perm_middle

/-- Result of the `keepalive` fetch as seen by its callers: `some status`
when the request resolved, `none` when the `try`/`catch` swallowed a
transport error and the function returned `null`. -/
def keepalive (outcome : Except Unit Nat) : Option Nat :=
  match outcome with
  | .ok status => some status
  | .error _ => none

/-- Tri-state liveness result. -/
inductive Liveness where
  | authorized
  | unauthorized
  | unknown
deriving DecidableEq

/-- Modelled from the spec: the probe classification of an outcome
(status `200` maps to `Authorized`, status `401` to `Unauthorized`, any
other status or a thrown transport error to `Unknown`).  The source has
no such three-way classification; this definition follows the spec's
words so the code's two-way branch can be compared against it. -/
def probeSpec (outcome : Except Unit Nat) : Liveness :=
  match outcome with
  | .error _ => .unknown
  | .ok status =>
      if status = 200 then .authorized
      else if status = 401 then .unauthorized
      else .unknown

/-- What the client does after a disconnect probe resolves. -/
inductive Decision where
  | reconnect
  | terminate
deriving DecidableEq

/-- The behaviour the spec assigns to each liveness result: only
`Unauthorized` terminates the session, the other two proceed to
reconnect. -/
def decisionOfLiveness : Liveness → Decision
  | .unauthorized => .terminate
  | _ => .reconnect

/-- The branch of `closeAndErrorHandler` on the resolved probe value:
`result === 401` terminates the session, anything else (any other
status, or `null` from a thrown transport error) schedules a
reconnect. -/
def disconnectDecision (r : Option Nat) : Decision :=
  if r = some 401 then .terminate else .reconnect

/-- Observable side effects of one handler run. -/
inductive Action where
  | probeStarted
  | connectAttempt
  | sessionTerminated
  | reconnectScheduled (delay : Nat)
  | keepaliveScheduled
  | verifiedHash
deriving DecidableEq

/-- The page's mutable variables (`images`, `dummy_images`, `connected`,
`reconnectTimeout`, `connectScheduled`), the current socket identity
(`wsGen`, bumped each time `connect()` makes a new socket), and pending
timers / in-flight probe promises tracked as counters so that timer-fire
and promise-resolution events can be constrained to ones actually
outstanding. -/
structure St where
  images : List Item
  dummy_images : List Item
  connected : Bool
  reconnectTimeout : Nat
  connectScheduled : Bool
  wsGen : Nat
  pendingReconnectTimers : Nat
  pendingKeepaliveTimers : Nat
  pendingDisconnectProbes : Nat
  pendingKeepaliveProbes : Nat
deriving DecidableEq

def originalReconnectTimeout : Nat := 500

def maxReconnectTimeout : Nat := 3000

def keepaliveInterval : Nat := 60000

/-- `scheduleReconnect` from the source: early return when a reconnect is
already scheduled; otherwise set the flag, start the timer with the
current `reconnectTimeout`, then double the timeout capped at
`maxReconnectTimeout`. -/
def scheduleReconnect (s : St) : St × List Action :=
  if s.connectScheduled then (s, [])
  else
    ({ s with
        connectScheduled := true,
        pendingReconnectTimers := s.pendingReconnectTimers + 1,
        reconnectTimeout := min (2 * s.reconnectTimeout) maxReconnectTimeout },
     [Action.reconnectScheduled s.reconnectTimeout])

/-- `scheduleKeepalive` from the source: start a keepalive timer only
while `connected` is true. -/
def scheduleKeepalive (s : St) : St × List Action :=
  if s.connected then
    ({ s with pendingKeepaliveTimers := s.pendingKeepaliveTimers + 1 },
     [Action.keepaliveScheduled])
  else (s, [])

/-- The events the environment can deliver to the client: socket events,
timer firings, and resolutions of the in-flight probe promises (the
`result` is the value `keepalive()` resolved with). -/
inductive Event where
  | wsOpen
  | wsClose
  | wsError
  | wsMessage (d : Delta)
  | disconnectProbeDone (result : Option Nat)
  | reconnectFired
  | keepaliveFired
  | keepaliveProbeDone (result : Option Nat)
deriving DecidableEq

/-- One handler run, straight from the listeners in `connect()`:
`open` sets `connected`, clears the buffer, resets the timeout, runs the
integrity check and begins the keepalive cycle; `close`/`error` run
`closeAndErrorHandler`, whose synchronous part sets `connected := false`
and starts the probe, and whose `.then` continuation is the
`disconnectProbeDone` event; `message` applies the decoded delta to the
buffer and publishes it; the reconnect timer callback clears the flag and
calls `connect()` (a new socket); the keepalive timer callback starts a
probe whose `.then` continuation is the `keepaliveProbeDone` event. -/
def step (s : St) : Event → St × List Action
  | .wsOpen =>
      let s1 := { s with
        connected := true,
        dummy_images := [],
        reconnectTimeout := originalReconnectTimeout }
      let p := scheduleKeepalive s1
      (p.1, Action.verifiedHash :: p.2)
  | .wsClose =>
      ({ s with
          connected := false,
          pendingDisconnectProbes := s.pendingDisconnectProbes + 1 },
       [Action.probeStarted])
  | .wsError =>
      ({ s with
          connected := false,
          pendingDisconnectProbes := s.pendingDisconnectProbes + 1 },
       [Action.probeStarted])
  | .wsMessage d =>
      let next := applyDelta s.dummy_images d
      ({ s with dummy_images := next, images := next }, [])
  | .disconnectProbeDone r =>
      let s0 := { s with pendingDisconnectProbes := s.pendingDisconnectProbes - 1 }
      if r = some 401 then (s0, [Action.sessionTerminated])
      else scheduleReconnect s0
  | .reconnectFired =>
      ({ s with
          connectScheduled := false,
          pendingReconnectTimers := s.pendingReconnectTimers - 1,
          wsGen := s.wsGen + 1 },
       [Action.connectAttempt])
  | .keepaliveFired =>
      ({ s with
          pendingKeepaliveTimers := s.pendingKeepaliveTimers - 1,
          pendingKeepaliveProbes := s.pendingKeepaliveProbes + 1 },
       [Action.probeStarted])
  | .keepaliveProbeDone r =>
      let s0 := { s with pendingKeepaliveProbes := s.pendingKeepaliveProbes - 1 }
      if r = some 401 then (s0, [Action.sessionTerminated])
      else scheduleKeepalive s0

/-- An event as delivered by a particular socket.  The source attaches
fresh listeners to every socket `connect()` creates and never calls
`removeEventListener`; no handler body inspects the event's source
socket, so an event from a replaced socket runs exactly the same handler
bodies over the same shared variables as one from the current socket:
the source generation is ignored. -/
def stepTagged (s : St) (_sourceGen : Nat) (e : Event) : St × List Action :=
  step s e

/-- Run a sequence of events, accumulating the emitted actions. -/
def runTrace (s : St) : List Event → St × List Action
  | [] => (s, [])
  | e :: es =>
      let p := step s e
      let q := runTrace p.1 es
      (q.1, p.2 ++ q.2)

/-- State after the page script has run: empty collections, not
connected, fresh backoff, nothing scheduled, and the first socket (the
script ends with a call to `connect()`). -/
def initSt : St :=
  { images := []
    dummy_images := []
    connected := false
    reconnectTimeout := originalReconnectTimeout
    connectScheduled := false
    wsGen := 1
    pendingReconnectTimers := 0
    pendingKeepaliveTimers := 0
    pendingDisconnectProbes := 0
    pendingKeepaliveProbes := 0 }

/-- An event is deliverable only when the timer or promise it resolves is
actually outstanding. -/
def validEvent (s : St) : Event → Prop
  | .reconnectFired => 0 < s.pendingReconnectTimers
  | .keepaliveFired => 0 < s.pendingKeepaliveTimers
  | .disconnectProbeDone _ => 0 < s.pendingDisconnectProbes
  | .keepaliveProbeDone _ => 0 < s.pendingKeepaliveProbes
  | _ => True

/-- States reachable from page start by deliverable events. -/
inductive Reachable : St → Prop where
  | init : Reachable initSt
  | next (s : St) (e : Event) : Reachable s → validEvent s e → Reachable (step s e).1

/-- The message listener on a raw frame.  `JSON.parse(event.data)` is the
first statement and there is no `try`/`catch` around it, so the input is
modelled by its parse outcome (`Except.error` when `JSON.parse` throws on
a malformed frame).  The returned flag records whether an uncaught
exception escaped the handler; on that path no state was mutated. -/
def messageListenerRun (s : St) (raw : Except Unit Delta) : St × Bool :=
  match raw with
  | .error _ => (s, true)
  | .ok d =>
      let next := applyDelta s.dummy_images d
      ({ s with dummy_images := next, images := next }, false)

/-- C1 counterexample: re-adding a name that is already in the collection
does not replace the existing entry — `insertSorted` only splices the new
item in, so the collection ends up with two items named `"a.jpg"`. -/
theorem uniqueness_replacement_counterexample :
    applyDeltas []
        [{ removed := none, added := some [("a.jpg", 3)] },
         { removed := none, added := some [("a.jpg", 5)] }]
      = [{ name := "a.jpg", timestamp := 5 }, { name := "a.jpg", timestamp := 3 }] ∧
    ¬ ((applyDeltas []
        [{ removed := none, added := some [("a.jpg", 3)] },
         { removed := none, added := some [("a.jpg", 5)] }]).map Item.name).Nodup := by
  constructor
  · rfl
  · decide

/-- C1 (amended): within one delta removals take effect first and each
addition is inserted at its descending-timestamp position, but an
addition whose name already exists is NOT replaced; name uniqueness is
preserved only when each delta's added names are pairwise distinct and
absent from the collection after its removals take effect. -/
theorem uniqueness_of_fresh_additions (l : List Item) (d : Delta)
    (h1 : (l.map Item.name).Nodup)
    (h2 : ((addedItems d).map Item.name).Nodup)
    (h3 : ∀ n ∈ (addedItems d).map Item.name, n ∉ (applyRemoved l d).map Item.name) :
    ((applyDelta l d).map Item.name).Nodup := by
  have hperm : List.Perm (applyDelta l d) (addedItems d ++ applyRemoved l d) :=
    foldl_insertSorted_perm _ _
  rw [(hperm.map Item.name).nodup_iff, List.map_append, List.nodup_append]
  refine ⟨h2, ?_, ?_⟩
  · exact h1.sublist ((applyRemoved_sublist l d).map Item.name)
  · intro n hn hn'
    exact h3 n hn hn'

/-- Witness for the amended C1 theorem at a concrete input. -/
theorem uniqueness_of_fresh_additions_witness :
    ((applyDelta
        [{ name := "b.jpg", timestamp := 1 }, { name := "c.jpg", timestamp := 0 }]
        { removed := some ["c.jpg"], added := some [("a.jpg", 3)] }).map Item.name).Nodup :=
  uniqueness_of_fresh_additions
    [{ name := "b.jpg", timestamp := 1 }, { name := "c.jpg", timestamp := 0 }]
    { removed := some ["c.jpg"], added := some [("a.jpg", 3)] }
    (by decide) (by decide) (by decide)

/-- C2: every sequence of delta applications starting from the empty
collection yields a collection sorted by descending timestamp (adjacent
items `a` before `b` satisfy `a.timestamp >= b.timestamp`), at every
observation point (every prefix of the sequence is itself a sequence);
and the concrete delta of the claim yields the order
`["a.jpg", "b.jpg"]`. -/
theorem sorted_desc_invariant :
    (∀ ds : List Delta, (applyDeltas [] ds).Chain' tsGE) ∧
    (applyDeltas [] [{ removed := none, added := some [("b.jpg", 1), ("a.jpg", 3)] }]).map Item.name
      = ["a.jpg", "b.jpg"] := by
  constructor
  · intro ds
    exact (applyDeltas_pairwise ds [] (List.Pairwise.nil)).chain'
  · rfl

/-- C6 counterexample: a malformed (non-JSON-decodable) frame makes
`JSON.parse` throw, and the message listener has no `try`/`catch`, so the
fault escapes the handler (the escape flag of the run is `true`, not
`false` as the claim's "no unhandled fault propagates" requires). -/
theorem malformed_message_fault_counterexample :
    ¬ ((messageListenerRun initSt (Except.error ())).2 = false) := by
  decide

/-- C6 (amended): on a malformed inbound message the handler aborts at
the parse with the item collection and the whole page state unchanged,
but the parse exception propagates out of the handler uncaught. -/
theorem malformed_message_state_unchanged (s : St) (e : Unit) :
    messageListenerRun s (Except.error e) = (s, true) := rfl

/-- C9: the probe is total (every outcome, including a thrown transport
error, is mapped to a value rather than a fault — the `catch` returns
`null`), and the code's two-way branch on the probe value agrees with the
spec's tri-state classification followed by its prescribed behaviour:
status `200` (Authorized) and any non-401 status or transport error
(Unknown) proceed to reconnect, status `401` (Unauthorized) terminates
the session. -/
theorem probe_tristate_refinement :
    ∀ o : Except Unit Nat,
      disconnectDecision (keepalive o) = decisionOfLiveness (probeSpec o) := by
  intro o
  cases o with
  | error e => rfl
  | ok status =>
      by_cases h200 : status = 200
      · subst h200; rfl
      · by_cases h401 : status = 401
        · subst h401; rfl
        · simp [keepalive, probeSpec, disconnectDecision, decisionOfLiveness, h200, h401]

/-- C10: the `open` listener resets the accumulation buffer
(`dummy_images`) to empty, resets the backoff delay, and sets the
connected flag, while leaving every other page variable — in particular
the rendered `images` collection — unchanged; the first message of the
new connection then rebuilds the published collection from the emptied
buffer. -/
theorem open_frame_effect :
    ∀ (s : St) (d : Delta),
      ((step s Event.wsOpen).1.images = s.images) ∧
      ((step s Event.wsOpen).1.connectScheduled = s.connectScheduled) ∧
      ((step s Event.wsOpen).1.pendingReconnectTimers = s.pendingReconnectTimers) ∧
      ((step s Event.wsOpen).1.wsGen = s.wsGen) ∧
      ((step s Event.wsOpen).1.pendingDisconnectProbes = s.pendingDisconnectProbes) ∧
      ((step s Event.wsOpen).1.pendingKeepaliveProbes = s.pendingKeepaliveProbes) ∧
      ((step s Event.wsOpen).1.dummy_images = []) ∧
      ((step s Event.wsOpen).1.reconnectTimeout = originalReconnectTimeout) ∧
      ((step s Event.wsOpen).1.connected = true) ∧
      ((step (step s Event.wsOpen).1 (Event.wsMessage d)).1.images = applyDelta [] d) := by
  intro s d
  simp [step, scheduleKeepalive]

theorem runTrace_append (s : St) (es1 es2 : List Event) :
    runTrace s (es1 ++ es2) =
      ((runTrace (runTrace s es1).1 es2).1,
       (runTrace s es1).2 ++ (runTrace (runTrace s es1).1 es2).2) := by
  induction es1 generalizing s with
  | nil => simp [runTrace]
  | cons e es ih => simp [runTrace, ih]

/-- One failed reconnect attempt with liveness Unknown: the socket
closes, the disconnect probe resolves with a transport error, the
scheduled reconnect timer fires and the next attempt starts. -/
def failCycle : List Event :=
  [Event.wsClose, Event.disconnectProbeDone none, Event.reconnectFired]

/-- `k` consecutive failed reconnect attempts. -/
def failCycles : Nat → List Event
  | 0 => []
  | k + 1 => failCycles k ++ failCycle

theorem failCycle_effect (s : St) (h : s.connectScheduled = false) :
    (runTrace s failCycle).1.reconnectTimeout
        = min (2 * s.reconnectTimeout) maxReconnectTimeout ∧
    (runTrace s failCycle).1.connectScheduled = false := by
  simp [failCycle, runTrace, step, scheduleReconnect, h]

theorem failCycles_timeout (s : St) (hf : s.connectScheduled = false)
    (h0 : s.reconnectTimeout = originalReconnectTimeout) (k : Nat) :
    (runTrace s (failCycles k)).1.reconnectTimeout
        = min (originalReconnectTimeout * 2 ^ k) maxReconnectTimeout ∧
    (runTrace s (failCycles k)).1.connectScheduled = false := by
  induction k with
  | zero =>
      constructor
      · simp [failCycles, runTrace, h0, originalReconnectTimeout, maxReconnectTimeout]
      · simp [failCycles, runTrace, hf]
  | succ k ih =>
      rcases ih with ⟨ht, hc⟩
      have heq : failCycles (k + 1) = failCycles k ++ failCycle := rfl
      rw [heq, runTrace_append]
      rcases failCycle_effect (runTrace s (failCycles k)).1 hc with ⟨ht', hc'⟩
      refine ⟨?_, hc'⟩
      rw [ht', ht]
      have hpow : originalReconnectTimeout * 2 ^ (k + 1)
          = 2 * (originalReconnectTimeout * 2 ^ k) := by ring
      rw [hpow]
      simp only [maxReconnectTimeout]
      omega

/-- C3: backoff growth and reset.  From any state with a fresh backoff
and no reconnect pending (as after a successful open, or at page start),
after `k` consecutive failed reconnects with liveness Unknown the next
disconnect schedules its reconnect with delay
`min(base * 2 ^ k, max)`; and the `open` listener resets the backoff to
base, so the first failure after any successful open schedules delay
`base`. -/
theorem backoff_growth_and_reset :
    (∀ (s : St) (k : Nat),
      s.reconnectTimeout = originalReconnectTimeout →
      s.connectScheduled = false →
      (runTrace (runTrace s (failCycles k)).1
          [Event.wsClose, Event.disconnectProbeDone none]).2
        = [Action.probeStarted,
           Action.reconnectScheduled (min (originalReconnectTimeout * 2 ^ k) maxReconnectTimeout)]) ∧
    (∀ s : St, ((step s Event.wsOpen).1).reconnectTimeout = originalReconnectTimeout) ∧
    (∀ s : St, s.connectScheduled = false →
      (runTrace (step s Event.wsOpen).1
          [Event.wsClose, Event.disconnectProbeDone none]).2
        = [Action.probeStarted, Action.reconnectScheduled originalReconnectTimeout]) := by
  refine ⟨?_, ?_, ?_⟩
  · intro s k h0 hf
    rcases failCycles_timeout s hf h0 k with ⟨ht, hc⟩
    simp [runTrace, step, scheduleReconnect, ht, hc]
  · intro s
    simp [step, scheduleKeepalive]
  · intro s hf
    simp [runTrace, step, scheduleReconnect, scheduleKeepalive, hf]

/-- Witness for C3: four consecutive Unknown failures from page start,
then the fifth disconnect schedules the capped delay
`min(500 * 2 ^ 4, 3000) = 3000`; and the reset conjunct applied right
after an open at page start. -/
theorem backoff_growth_and_reset_witness :
    ((runTrace (runTrace initSt (failCycles 4)).1
        [Event.wsClose, Event.disconnectProbeDone none]).2
      = [Action.probeStarted,
         Action.reconnectScheduled (min (originalReconnectTimeout * 2 ^ 4) maxReconnectTimeout)]) ∧
    ((runTrace (step initSt Event.wsOpen).1
        [Event.wsClose, Event.disconnectProbeDone none]).2
      = [Action.probeStarted, Action.reconnectScheduled originalReconnectTimeout]) :=
  ⟨backoff_growth_and_reset.1 initSt 4 rfl rfl,
   backoff_growth_and_reset.2.2 initSt rfl⟩

/-- Recognises a reconnect-scheduling action regardless of its delay. -/
def isReconnectScheduled : Action → Bool
  | .reconnectScheduled _ => true
  | _ => false

/-- C4 counterexample: one disconnect episode in which the failed socket
fires both `error` and `close` (the duplicate-event situation the
`connectScheduled` flag exists to debounce).  Both events run
`closeAndErrorHandler`, so the liveness prober is invoked twice, not
exactly once; and when both probes resolve `401`, the
session-termination callback fires twice, not exactly once. -/
theorem dual_event_episode_counterexample :
    ((runTrace initSt [Event.wsError, Event.wsClose]).2.count Action.probeStarted = 2) ∧
    ¬ ((runTrace initSt [Event.wsError, Event.wsClose]).2.count Action.probeStarted = 1) ∧
    ((runTrace initSt
        [Event.wsError, Event.wsClose,
         Event.disconnectProbeDone (some 401),
         Event.disconnectProbeDone (some 401)]).2.count Action.sessionTerminated = 2) ∧
    ¬ ((runTrace initSt
        [Event.wsError, Event.wsClose,
         Event.disconnectProbeDone (some 401),
         Event.disconnectProbeDone (some 401)]).2.count Action.sessionTerminated = 1) := by
  decide

/-- C4 (amended): each `close` or `error` event starts exactly one
liveness probe, so a disconnect episode in which the socket fires both
`error` and `close` invokes the prober twice; each probe resolving `401`
fires the termination callback once (hence twice for such an episode)
and leaves the reconnect timer state untouched (no reconnect scheduled);
a probe resolving anything else schedules exactly one reconnect, after
the current backoff delay, when none is pending; and over a whole
dual-event episode whose probes both resolve without `401`, the
reentrancy guard debounces the duplicate completion so exactly one
reconnect is scheduled. -/
theorem disconnect_episode_decision :
    (∀ s : St, (step s Event.wsClose).2 = [Action.probeStarted] ∧
               (step s Event.wsError).2 = [Action.probeStarted]) ∧
    (∀ s : St,
      (step s (Event.disconnectProbeDone (some 401))).2 = [Action.sessionTerminated] ∧
      (step s (Event.disconnectProbeDone (some 401))).1.pendingReconnectTimers
          = s.pendingReconnectTimers ∧
      (step s (Event.disconnectProbeDone (some 401))).1.connectScheduled
          = s.connectScheduled) ∧
    (∀ (s : St) (r : Option Nat), r ≠ some 401 → s.connectScheduled = false →
      (step s (Event.disconnectProbeDone r)).2
          = [Action.reconnectScheduled s.reconnectTimeout]) ∧
    (∀ (s : St) (r1 r2 : Option Nat),
      r1 ≠ some 401 → r2 ≠ some 401 → s.connectScheduled = false →
      (runTrace s
          [Event.wsError, Event.wsClose,
           Event.disconnectProbeDone r1,
           Event.disconnectProbeDone r2]).2.countP isReconnectScheduled = 1 ∧
      (runTrace s
          [Event.wsError, Event.wsClose,
           Event.disconnectProbeDone r1,
           Event.disconnectProbeDone r2]).2.count Action.probeStarted = 2) := by
  refine ⟨?_, ?_, ?_, ?_⟩
  · intro s
    constructor <;> rfl
  · intro s
    refine ⟨rfl, rfl, rfl⟩
  · intro s r hr hf
    simp [step, scheduleReconnect, hr, hf]
  · intro s r1 r2 hr1 hr2 hf
    constructor <;>
      simp [runTrace, step, scheduleReconnect, hr1, hr2, hf,
            List.countP_cons, List.count_cons, isReconnectScheduled]

/-- Witness for the amended C4 theorem at page start: a transport-error
probe resolution schedules one reconnect with the base delay; a `401`
resolution terminates the session; a dual-event episode whose probes
resolve with a transport error and a `500` schedules exactly one
reconnect while starting two probes. -/
theorem disconnect_episode_decision_witness :
    ((step initSt (Event.disconnectProbeDone none)).2
        = [Action.reconnectScheduled initSt.reconnectTimeout]) ∧
    ((step initSt (Event.disconnectProbeDone (some 401))).2
        = [Action.sessionTerminated]) ∧
    ((runTrace initSt
        [Event.wsError, Event.wsClose,
         Event.disconnectProbeDone none,
         Event.disconnectProbeDone (some 500)]).2.countP isReconnectScheduled = 1 ∧
     (runTrace initSt
        [Event.wsError, Event.wsClose,
         Event.disconnectProbeDone none,
         Event.disconnectProbeDone (some 500)]).2.count Action.probeStarted = 2) :=
  ⟨disconnect_episode_decision.2.2.1 initSt none (by decide) rfl,
   (disconnect_episode_decision.2.1 initSt).1,
   disconnect_episode_decision.2.2.2 initSt none (some 500)
     (by decide) (by decide) rfl⟩

theorem pendingReconnect_eq_flag (s : St) (h : Reachable s) :
    s.pendingReconnectTimers = (if s.connectScheduled then 1 else 0) := by
  induction h with
  | init => rfl
  | next s e hr _hv ih =>
      cases e with
      | wsOpen => simpa [step, scheduleKeepalive] using ih
      | wsClose => simpa [step] using ih
      | wsError => simpa [step] using ih
      | wsMessage d => simpa [step] using ih
      | disconnectProbeDone r =>
          by_cases hr401 : r = some 401
          · simpa [step, hr401] using ih
          · by_cases hcs : s.connectScheduled
            · simpa [step, scheduleReconnect, hr401, hcs] using ih
            · simp [step, scheduleReconnect, hr401, hcs] at ih ⊢
              omega
      | reconnectFired =>
          by_cases hcs : s.connectScheduled
          · simp [step, hcs] at ih ⊢
            omega
          · simp [step, hcs] at ih ⊢
            omega
      | keepaliveFired => simpa [step] using ih
      | keepaliveProbeDone r =>
          by_cases hr401 : r = some 401
          · simpa [step, hr401] using ih
          · by_cases hcn : s.connected
            · simpa [step, scheduleKeepalive, hr401, hcn] using ih
            · simpa [step, scheduleKeepalive, hr401, hcn] using ih

/-- C5: at most one reconnect attempt is pending in every reachable
state; two `close` events delivered before the scheduled reconnect timer
fires result in exactly one connection attempt (and exactly one scheduled
reconnect); and `scheduleReconnect` on a state where a reconnect is
already scheduled changes nothing and schedules nothing. -/
theorem single_inflight_reconnect :
    (∀ s : St, Reachable s → s.pendingReconnectTimers ≤ 1) ∧
    ((runTrace initSt
        [Event.wsClose, Event.disconnectProbeDone none,
         Event.wsClose, Event.disconnectProbeDone none,
         Event.reconnectFired]).2.count Action.connectAttempt = 1 ∧
     (runTrace initSt
        [Event.wsClose, Event.disconnectProbeDone none,
         Event.wsClose, Event.disconnectProbeDone none,
         Event.reconnectFired]).2.count
          (Action.reconnectScheduled originalReconnectTimeout) = 1) ∧
    (∀ s : St, s.connectScheduled = true → scheduleReconnect s = (s, [])) := by
  refine ⟨?_, ?_, ?_⟩
  · intro s h
    have h2 := pendingReconnect_eq_flag s h
    split_ifs at h2 <;> omega
  · constructor <;> decide
  · intro s hcs
    simp [scheduleReconnect, hcs]

/-- Witness for C5: the page-start state is reachable and has at most
one pending reconnect, and `scheduleReconnect` on an
already-scheduled state is a no-op. -/
theorem single_inflight_reconnect_witness :
    initSt.pendingReconnectTimers ≤ 1 ∧
    scheduleReconnect { initSt with connectScheduled := true }
      = ({ initSt with connectScheduled := true }, []) :=
  ⟨single_inflight_reconnect.1 initSt Reachable.init,
   single_inflight_reconnect.2.2 { initSt with connectScheduled := true } rfl⟩

/-- C7 counterexample: open, then close.  After the close the connection
is no longer Open, yet the keepalive timer scheduled by the open handler
is still outstanding (nothing cancels it — there is no teardown path),
and when it elapses the keepalive callback issues one more probe call. -/
theorem keepalive_orphan_timer_counterexample :
    ((runTrace initSt [Event.wsOpen, Event.wsClose]).1.connected = false) ∧
    ¬ ((runTrace initSt [Event.wsOpen, Event.wsClose]).1.pendingKeepaliveTimers = 0) ∧
    (step (runTrace initSt [Event.wsOpen, Event.wsClose]).1 Event.keepaliveFired).2
      = [Action.probeStarted] := by
  decide

/-- C7 (amended): once the connection is no longer open the keepalive
loop stops rescheduling itself — `scheduleKeepalive` is a no-op while not
connected, so a keepalive completion schedules no further timer; but a
keepalive timer already pending at close survives (no cancellation or
teardown path exists) and fires one final probe. -/
theorem keepalive_no_reschedule_when_closed (s : St) (r : Option Nat)
    (h : s.connected = false) :
    scheduleKeepalive s = (s, []) ∧
    (step s (Event.keepaliveProbeDone r)).1.pendingKeepaliveTimers
        = s.pendingKeepaliveTimers ∧
    Action.keepaliveScheduled ∉ (step s (Event.keepaliveProbeDone r)).2 := by
  by_cases hr : r = some 401 <;>
    simp [step, scheduleKeepalive, h, hr]

/-- Witness for the amended C7 theorem at the page-start state. -/
theorem keepalive_no_reschedule_witness :
    scheduleKeepalive initSt = (initSt, []) ∧
    (step initSt (Event.keepaliveProbeDone none)).1.pendingKeepaliveTimers
        = initSt.pendingKeepaliveTimers ∧
    Action.keepaliveScheduled ∉ (step initSt (Event.keepaliveProbeDone none)).2 :=
  keepalive_no_reschedule_when_closed initSt none rfl

/-- A run that opens the first socket, receives one item on it, loses it,
and reconnects: afterwards the second socket (`wsGen = 2`) has taken
over. -/
def staleTracePre : List Event :=
  [Event.wsOpen,
   Event.wsMessage { removed := none, added := some [("x.jpg", 1)] },
   Event.wsClose, Event.disconnectProbeDone none, Event.reconnectFired]

/-- C8 counterexample: after the reconnect has taken over, a late
`message` event delivered by the replaced first socket is NOT a no-op —
its handler body runs and mutates the item collection (here it removes
`"x.jpg"`), because listeners are never detached and no handler checks
the event's source socket. -/
theorem stale_handler_mutation_counterexample :
    (1 ≠ (runTrace initSt staleTracePre).1.wsGen) ∧
    ¬ (stepTagged (runTrace initSt staleTracePre).1 1
          (Event.wsMessage { removed := some ["x.jpg"], added := none })
        = ((runTrace initSt staleTracePre).1, [])) := by
  decide

/-- C8 (amended): the old connection's handlers are never detached, and
no handler inspects the event's source socket, so a late event from a
closed or replaced connection is processed exactly as an event from the
current connection: a stale message still applies its delta to the item
collection, and a stale close still clears the connected flag. -/
theorem stale_events_processed_like_current (s : St) (gen : Nat) (d : Delta)
    (_h : gen ≠ s.wsGen) :
    stepTagged s gen (Event.wsMessage d) = step s (Event.wsMessage d) ∧
    (stepTagged s gen (Event.wsMessage d)).1.images = applyDelta s.dummy_images d ∧
    (stepTagged s gen Event.wsClose).1.connected = false :=
  ⟨rfl, rfl, rfl⟩

/-- Witness for the amended C8 theorem: a stale-tagged event at the
page-start state (whose current socket is generation 1). -/
theorem stale_events_witness :
    stepTagged initSt 0 (Event.wsMessage { removed := none, added := none })
        = step initSt (Event.wsMessage { removed := none, added := none }) ∧
    (stepTagged initSt 0 (Event.wsMessage { removed := none, added := none })).1.images
        = applyDelta initSt.dummy_images { removed := none, added := none } ∧
    (stepTagged initSt 0 Event.wsClose).1.connected = false :=
  stale_events_processed_like_current initSt 0
    { removed := none, added := none } (by decide)

end ImageWatch
